import Mathlib

/-!  A shallow embedding of the WhatsApp message orchestrator of
src/whatsapp-bot/index.js: the signature-verification middleware, the
per-user session map, message normalization, the reasoning call with its
fallback, outbound delivery, the incoming-message handler and the
periodic session sweep.  External collaborators (the Node crypto
library, the axios HTTP client, the WhatsApp transport, the clock and
the conversation-id generator) enter as explicit oracle parameters, and
JavaScript exceptions are modelled with Except.  -/

/-- Errors thrown by the Node crypto library: crypto.timingSafeEqual
throws a RangeError when the two buffers have different byte lengths. -/
inductive CryptoError where
  | lengthMismatch
deriving DecidableEq, Repr

/-- Node crypto.timingSafeEqual on byte buffers: throws (modelled as
Except.error) when the lengths differ, otherwise reports byte-wise
equality. -/
def timingSafeEqual (a b : List Nat) : Except CryptoError Bool :=
  if a.length = b.length then .ok (a == b) else .error .lengthMismatch

/-- UTF-8 bytes of the string sha256= that the code concatenates in
front of the hex digest. -/
def sha256Tag : List Nat := [115, 104, 97, 50, 53, 54, 61]

/-- verifySignature of src/whatsapp-bot/index.js lines 376-388.
hmacHexBytes stands for the bytes of the hex digest the external crypto
library computes from the shared secret and JSON.stringify of the
request body; the body enters the computation only through it.
signature is the raw header value as bytes: none models an absent
header, some [] the empty string; both are falsy in JavaScript, so the
guard at the top of the function returns false for them.  A present
non-empty header goes to crypto.timingSafeEqual, whose length-mismatch
exception propagates out. -/
def verifySignature (hmacHexBytes : List Nat) (signature : Option (List Nat)) :
    Except CryptoError Bool :=
  match signature with
  | none => .ok false
  | some [] => .ok false
  | some s => timingSafeEqual s (sha256Tag ++ hmacHexBytes)

/-- JavaScript truthy-or on an optional string field: x || d evaluates
to d when x is undefined (none here) or the empty string, and to x
otherwise. -/
def jsOr (x : Option String) (d : String) : String :=
  match x with
  | none => d
  | some v => if v = "" then d else v

/-- The type-specific payload of an inbound message, one constructor per
case of the switch in extractMessageContent; location carries the string
rendering of its numeric lat and lng fields, and other covers every
message type that is not in the switch. -/
inductive MsgContent where
  | text (body : String)
  | image (caption : Option String)
  | video (caption : Option String)
  | audio
  | document (body : Option String)
  | location (lat lng : String)
  | other (ty : String)
deriving DecidableEq, Repr

/-- An inbound message: the sender identifier (message.from in the
source) and the type-specific payload. -/
structure Message where
  sender : String
  content : MsgContent
deriving DecidableEq, Repr

/-- extractMessageContent of src/whatsapp-bot/index.js lines 205-222:
the switch over message.type. -/
def extractMessageContent (m : Message) : String :=
  match m.content with
  | .text body => body
  | .image caption => "[Imagen: " ++ jsOr caption "Sin descripción" ++ "]"
  | .video caption => "[Video: " ++ jsOr caption "Sin descripción" ++ "]"
  | .audio => "[Audio]"
  | .document body => "[Documento: " ++ jsOr body "Sin nombre" ++ "]"
  | .location lat lng => "[Ubicación: " ++ lat ++ ", " ++ lng ++ "]"
  | .other _ => "[Mensaje no soportado]"

/-- Opaque conversation context: a key-to-value mapping owned by the
reasoning engine responses.  The empty list models the initial {}. -/
abbrev Ctx := List (String × String)

/-- One conversation session record, the object this.sessions stores per
phone number. -/
structure Session where
  phone : String
  conversation_id : String
  last_activity : Int
  context : Ctx
deriving DecidableEq, Repr

/-- The sessions map: an association list with the lookup and insertion
discipline of a JavaScript Map keyed by the phone number. -/
abbrev Store := List (String × Session)

/-- Map.get: the value at the first matching key. -/
def sGet (st : Store) (k : String) : Option Session :=
  match st with
  | [] => none
  | (k2, v) :: rest => if k2 = k then some v else sGet rest k

/-- Map.set: replaces the value at an existing key and otherwise appends
a new entry, following JavaScript Map insertion order. -/
def sSet (st : Store) (k : String) (v : Session) : Store :=
  match st with
  | [] => [(k, v)]
  | (k2, v2) :: rest => if k2 = k then (k, v) :: rest else (k2, v2) :: sSet rest k v

/-- The 24 hour idle threshold maxAge of cleanupSessions. -/
def maxAge : Int := 24 * 60 * 60 * 1000

/-- cleanupSessions of src/whatsapp-bot/index.js lines 452-462: delete
every entry with now - last_activity > maxAge. -/
def cleanupSessions (st : Store) (now : Int) : Store :=
  st.filter (fun e => !(decide (now - e.2.last_activity > maxAge)))

/-- The body of a successful reasoning-service response; context none
models a response whose context field is null or absent, which is falsy
in JavaScript. -/
structure AIData where
  response : String
  context : Option Ctx
deriving DecidableEq, Repr

/-- The fixed fallback reply of processWithAI, which is also the literal
the catch block of handleIncomingMessage sends as apology. -/
def fallbackMessage : String :=
  "Lo siento, tuve un problema procesando tu mensaje. ¿Podrías intentarlo de nuevo?"

/-- A failed axios call: transport error, non-success status or
timeout. -/
inductive AxiosError where
  | networkError
  | httpError (status : Nat)
  | timeout
deriving DecidableEq, Repr

/-- A failure of the WhatsApp client send. -/
inductive TransportError where
  | disconnected
  | rejected (reason : String)
deriving DecidableEq, Repr

/-- Exceptions thrown by sendMessage: the not-ready guard, or a rethrown
transport error. -/
inductive SendError where
  | notReady
  | transport (e : TransportError)
deriving DecidableEq, Repr

/-- The object sendMessage returns on success. -/
structure DeliveryResult where
  success : Bool
  message_id : String
deriving DecidableEq, Repr

/-- One outbound network call made while handling a message, recorded so
that the frame claims can speak about downstream calls. -/
inductive Call where
  | aiCall (user_id message session_id : String) (context : Ctx)
  | sendAttempt (dest body : String)
deriving DecidableEq, Repr

/-- The external world of one turn: the reasoning service, the readiness
flag and send function of the WhatsApp client, the clock value, and the
conversation id the generator would produce. -/
structure HandlerEnv where
  ai : String → String → String → Ctx → Except AxiosError AIData
  isReady : Bool
  transport : String → String → Except TransportError String
  now : Int
  freshId : String

/-- formatPhoneNumber of src/whatsapp-bot/index.js lines 359-370: keep
the digits, put 506 in front when the digits do not already start with
it, then append the WhatsApp address suffix. -/
def formatPhoneNumber (phone : String) : String :=
  let cleaned := phone.toList.filter Char.isDigit
  let cleaned := if cleaned.take 3 = ['5', '0', '6'] then cleaned else '5' :: '0' :: '6' :: cleaned
  String.mk cleaned ++ "@c.us"

/-- sendMessage of src/whatsapp-bot/index.js lines 250-288 for text
messages: throws when the client is not ready, before any network
attempt; otherwise calls client.sendMessage on the formatted number, and
a transport failure is logged and rethrown while a success returns
success true with the serialized message id.  The second component
records the network attempts that were made. -/
def sendMessage (isReady : Bool) (transport : String → String → Except TransportError String)
    (phone message : String) : Except SendError DeliveryResult × List Call :=
  if isReady then
    match transport (formatPhoneNumber phone) message with
    | .ok mid => (.ok { success := true, message_id := mid },
        [.sendAttempt (formatPhoneNumber phone) message])
    | .error e => (.error (.transport e),
        [.sendAttempt (formatPhoneNumber phone) message])
  else
    (.error .notReady, [])

/-- processWithAI of src/whatsapp-bot/index.js lines 224-248: one axios
call to the reasoning engine carrying the message and the session's
conversation id and context; a failed call is caught and replaced by the
fallback reply paired with the session's current context.  The second
component records the reasoning call. -/
def processWithAI (ai : String → String → String → Ctx → Except AxiosError AIData)
    (phone message : String) (session : Session) : AIData × List Call :=
  ( match ai phone message session.conversation_id session.context with
    | .ok d => d
    | .error _ => { response := fallbackMessage, context := some session.context },
    [.aiCall phone message session.conversation_id session.context] )

/-- Lines 168-181 of handleIncomingMessage: the get-or-create of the
session record followed by the last_activity touch.  A fresh session
starts with the generated conversation id and the empty context. -/
def resolveSession (env : HandlerEnv) (st : Store) (phone : String) : Session :=
  match sGet st phone with
  | some s => { s with last_activity := env.now }
  | none => { phone := phone, conversation_id := env.freshId,
              last_activity := env.now, context := [] }

/-- Line 184 of handleIncomingMessage: the reasoning step of a turn,
performed on the resolved and touched session. -/
def turnAI (env : HandlerEnv) (st : Store) (m : Message) : AIData × List Call :=
  processWithAI env.ai m.sender (extractMessageContent m) (resolveSession env st m.sender)

/-- Line 187 of handleIncomingMessage: the delivery of the reasoning
step's reply text. -/
def turnSend (env : HandlerEnv) (st : Store) (m : Message) :
    Except SendError DeliveryResult × List Call :=
  sendMessage env.isReady env.transport m.sender (turnAI env st m).1.response

/-- The try block of handleIncomingMessage, lines 160-191: resolve and
touch the session (the mutated object is visible in the map at once),
call the reasoning service, send the reply, and only after a successful
send replace the session context by the truthy-or of the returned
context and the current one.  Returns the store as mutated so far, the
downstream calls made, and either the delivered reply text or the
exception escaping the block. -/
def handlerBody (env : HandlerEnv) (st : Store) (m : Message) :
    Store × List Call × Except SendError String :=
  match (turnSend env st m).1 with
  | .error e =>
      (sSet st m.sender (resolveSession env st m.sender),
       (turnAI env st m).2 ++ (turnSend env st m).2, .error e)
  | .ok _ =>
      (sSet (sSet st m.sender (resolveSession env st m.sender)) m.sender
        { resolveSession env st m.sender with
          context := (turnAI env st m).1.context.getD (resolveSession env st m.sender).context },
       (turnAI env st m).2 ++ (turnSend env st m).2, .ok (turnAI env st m).1.response)

/-- The outcome of handleIncomingMessage as seen by its caller; threw
would be an exception escaping the handler. -/
inductive HandlerResult where
  | completed (store : Store) (delivered : Option String) (calls : List Call)
  | threw (e : SendError) (store : Store) (calls : List Call)
deriving DecidableEq, Repr

/-- Lines 196-201: the apology send the catch block attempts, whose text
is the same literal as the reasoning fallback. -/
def apologySend (env : HandlerEnv) (m : Message) : Except SendError DeliveryResult × List Call :=
  sendMessage env.isReady env.transport m.sender fallbackMessage

/-- handleIncomingMessage of src/whatsapp-bot/index.js lines 160-203:
the try block, and on an escaped exception the catch block, which
attempts one apology send inside its own try/catch that swallows the
send failure. -/
def handleIncomingMessage (env : HandlerEnv) (st : Store) (m : Message) : HandlerResult :=
  match handlerBody env st m with
  | (st2, calls, .ok reply) => .completed st2 (some reply) calls
  | (st2, calls, .error _) =>
      match (apologySend env m).1 with
      | .ok _ => .completed st2 none (calls ++ (apologySend env m).2)
      | .error _ => .completed st2 none (calls ++ (apologySend env m).2)

/-- The HTTP verdicts the webhook stack can produce: 401 from the
middleware, 500 from the framework error path, 200 from the route. -/
inductive HttpReply where
  | unauthorized
  | serverError
  | accepted
deriving DecidableEq, Repr

/-- The /webhook middleware of lines 25-32 composed with the route of
lines 37-56: only a request whose signature verifies reaches the message
loop; a false verdict is answered 401 with nothing else done, and an
exception out of verifySignature reaches the framework error handler,
which answers 500 with nothing else done.  Inside the route, a thrown
handler exception would abort the loop and be answered 500. -/
def webhookPost (digest : List Nat) (signature : Option (List Nat)) (env : HandlerEnv)
    (st : Store) (msgs : List Message) : HttpReply × Store × List Call :=
  match verifySignature digest signature with
  | .ok true =>
      let final := msgs.foldl
        (fun acc m =>
          match acc.2.2 with
          | some e => (acc.1, acc.2.1, some e)
          | none =>
            match handleIncomingMessage env acc.1 m with
            | .completed st2 _ calls => (st2, acc.2.1 ++ calls, none)
            | .threw e st2 calls => (st2, acc.2.1 ++ calls, some e))
        (st, ([] : List Call), (none : Option SendError))
      match final.2.2 with
      | none => (.accepted, final.1, final.2.1)
      | some _ => (.serverError, final.1, final.2.1)
  | .ok false => (.unauthorized, st, [])
  | .error _ => (.serverError, st, [])

/-- One externally visible event: an inbound message run through
handleIncomingMessage, or one firing of the hourly cleanup timer. -/
inductive Event where
  | incoming (env : HandlerEnv) (m : Message)
  | sweep (now : Int)

/-- The sessions map after one event. -/
def step (st : Store) (e : Event) : Store :=
  match e with
  | .incoming env m =>
      match handleIncomingMessage env st m with
      | .completed st2 _ _ => st2
      | .threw _ st2 _ => st2
  | .sweep now => cleanupSessions st now

/-- The sessions map after a sequence of events. -/
def run (st : Store) (es : List Event) : Store := es.foldl step st

/-- The successive stores a run passes through, the initial one
included. -/
def states (st : Store) (es : List Event) : List Store :=
  match es with
  | [] => [st]
  | e :: rest => st :: states (step st e) rest

/-- Keys of the sessions map are pairwise distinct; a JavaScript Map
cannot hold two entries with one key. -/
abbrev keysNodup (st : Store) : Prop := (st.map Prod.fst).Nodup

/-- A concrete inbound text message used by witnesses and
counterexamples. -/
def sampleMessage : Message := ⟨"50612345678", .text "Hola"⟩

/-- A concrete pre-existing session for the sender of sampleMessage. -/
def sampleSession : Session := ⟨"50612345678", "conv_1", 0, [("k", "v")]⟩

/-- An environment whose reasoning call succeeds with a truthy context
and whose transport delivers. -/
def okEnv : HandlerEnv :=
  { ai := fun _ _ _ _ => .ok { response := "ok", context := some [("step", "2")] }
    isReady := true
    transport := fun _ _ => .ok "mid_1"
    now := 5
    freshId := "conv_new" }

/-- An environment whose reasoning call succeeds but returns a null
(falsy) context field. -/
def nullCtxEnv : HandlerEnv :=
  { ai := fun _ _ _ _ => .ok { response := "ok", context := none }
    isReady := true
    transport := fun _ _ => .ok "mid_2"
    now := 7
    freshId := "conv_n" }

/-- An environment whose reasoning call succeeds with a fresh context
but whose transport fails every send. -/
def failSendEnv : HandlerEnv :=
  { ai := fun _ _ _ _ => .ok { response := "nuevo", context := some [("n", "1")] }
    isReady := true
    transport := fun _ _ => .error .disconnected
    now := 9
    freshId := "conv_f" }

/-- An environment whose reasoning call times out and whose transport
delivers. -/
def failAIEnv : HandlerEnv :=
  { ai := fun _ _ _ _ => .error .timeout
    isReady := true
    transport := fun _ _ => .ok "mid_3"
    now := 11
    freshId := "conv_t" }

/-- Lookup after writing a key finds the written value. -/
theorem sGet_sSet_self (st : Store) (k : String) (v : Session) :
    sGet (sSet st k v) k = some v := by
  induction st with
  | nil => simp [sSet, sGet]
  | cons e rest ih =>
      obtain ⟨k2, v2⟩ := e
      by_cases hk : k2 = k
      · simp [sSet, sGet, hk]
      · simp [sSet, sGet, hk, ih]

/-- Writing one key leaves the lookup of another key unchanged. -/
theorem sGet_sSet_ne (st : Store) (k p : String) (v : Session) (h : k ≠ p) :
    sGet (sSet st k v) p = sGet st p := by
  induction st with
  | nil => simp [sSet, sGet, h]
  | cons e rest ih =>
      obtain ⟨k2, v2⟩ := e
      by_cases hk : k2 = k
      · subst hk
        simp [sSet, sGet, h]
      · simp [sSet, sGet, hk, ih]

/-- Two writes to one key collapse to the second. -/
theorem sSet_sSet (st : Store) (k : String) (a b : Session) :
    sSet (sSet st k a) k b = sSet st k b := by
  induction st with
  | nil => simp [sSet]
  | cons e rest ih =>
      obtain ⟨k2, v2⟩ := e
      by_cases hk : k2 = k
      · simp [sSet, hk]
      · simp [sSet, hk, ih]

/-- A successful lookup is a member of the store. -/
theorem mem_of_sGet (st : Store) (p : String) (s : Session) (h : sGet st p = some s) :
    (p, s) ∈ st := by
  induction st with
  | nil => simp [sGet] at h
  | cons e rest ih =>
      obtain ⟨k2, v2⟩ := e
      by_cases hk : k2 = p
      · subst hk
        simp [sGet] at h
        simp [h]
      · simp [sGet, hk] at h
        exact List.mem_cons_of_mem _ (ih h)

/-- With pairwise distinct keys, two members at one key agree. -/
theorem keysNodup_unique (st : Store) (p : String) (a b : Session)
    (h : keysNodup st) (ha : (p, a) ∈ st) (hb : (p, b) ∈ st) : a = b := by
  induction st with
  | nil => simp at ha
  | cons e rest ih =>
      obtain ⟨k2, v2⟩ := e
      simp only [keysNodup, List.map_cons, List.nodup_cons] at h
      rcases List.mem_cons.mp ha with h1 | h1
      · rcases List.mem_cons.mp hb with h2 | h2
        · rw [Prod.mk.injEq] at h1 h2
          rw [h1.2, h2.2]
        · exfalso
          apply h.1
          rw [Prod.mk.injEq] at h1
          rw [← h1.1]
          exact List.mem_map.mpr ⟨(p, b), h2, rfl⟩
      · rcases List.mem_cons.mp hb with h2 | h2
        · exfalso
          apply h.1
          rw [Prod.mk.injEq] at h2
          rw [← h2.1]
          exact List.mem_map.mpr ⟨(p, a), h1, rfl⟩
        · exact ih h.2 h1 h2

/-- The keys after a write are the old keys with the written key
possibly appended. -/
theorem mem_keys_sSet (st : Store) (k p : String) (v : Session) :
    p ∈ (sSet st k v).map Prod.fst ↔ p ∈ st.map Prod.fst ∨ p = k := by
  induction st with
  | nil => simp [sSet, eq_comm]
  | cons e rest ih =>
      obtain ⟨k2, v2⟩ := e
      by_cases hk : k2 = k
      · subst hk
        simp [sSet, eq_comm]
        tauto
      · simp [sSet, hk, ih]
        tauto

/-- A write keeps the keys pairwise distinct. -/
theorem keysNodup_sSet (st : Store) (k : String) (v : Session) (h : keysNodup st) :
    keysNodup (sSet st k v) := by
  induction st with
  | nil => simp [sSet, keysNodup]
  | cons e rest ih =>
      obtain ⟨k2, v2⟩ := e
      simp only [keysNodup, List.map_cons, List.nodup_cons] at h
      by_cases hk : k2 = k
      · subst hk
        have hset : sSet ((k2, v2) :: rest) k2 v = (k2, v) :: rest := by simp [sSet]
        rw [hset]
        simp only [keysNodup, List.map_cons, List.nodup_cons]
        exact h
      · simp only [sSet, if_neg hk, keysNodup, List.map_cons, List.nodup_cons]
        refine ⟨?_, ih h.2⟩
        intro hmem
        rcases (mem_keys_sSet rest k k2 v).mp hmem with h2 | h2
        · exact h.1 h2
        · exact hk h2

/-- The sweep keeps the keys pairwise distinct. -/
theorem keysNodup_cleanup (st : Store) (now : Int) (h : keysNodup st) :
    keysNodup (cleanupSessions st now) :=
  List.Nodup.sublist (List.Sublist.map Prod.fst (List.filter_sublist st)) h

/-- Every entry surviving the sweep was in the store. -/
theorem mem_of_mem_cleanup (st : Store) (now : Int) (e : String × Session)
    (h : e ∈ cleanupSessions st now) : e ∈ st :=
  List.Sublist.mem h (List.filter_sublist st)

/-- On an existing session the resolve step only touches
last_activity. -/
theorem resolveSession_existing (env : HandlerEnv) (st : Store) (phone : String) (s : Session)
    (h : sGet st phone = some s) :
    resolveSession env st phone = { s with last_activity := env.now } := by
  simp [resolveSession, h]

/-- Every incoming message leaves the handler completed, with a store
that is one write at the sender's key of a session keeping the resolved
conversation id. -/
theorem handle_completes (env : HandlerEnv) (st : Store) (m : Message) :
    ∃ s2 d calls, handleIncomingMessage env st m = .completed (sSet st m.sender s2) d calls ∧
      s2.conversation_id = (resolveSession env st m.sender).conversation_id := by
  unfold handleIncomingMessage handlerBody
  cases hsend : (turnSend env st m).1 with
  | error e =>
      cases hap : (apologySend env m).1 with
      | error e2 => exact ⟨resolveSession env st m.sender, none, _, rfl, rfl⟩
      | ok r => exact ⟨resolveSession env st m.sender, none, _, rfl, rfl⟩
  | ok r =>
      rw [sSet_sSet]
      exact ⟨{ resolveSession env st m.sender with
               context := (turnAI env st m).1.context.getD (resolveSession env st m.sender).context },
             some (turnAI env st m).1.response, _, rfl, rfl⟩

/-- Claim C10: handleIncomingMessage never propagates an exception to
its caller: for every environment, hence every combination of session,
reasoning and delivery failures, every store and every inbound message,
the handler completes; the catch block attempts at most one apology send
and swallows that send's own failure. -/
theorem handleIncomingMessage_no_throw (env : HandlerEnv) (st : Store) (m : Message) :
    ∃ st2 d calls, handleIncomingMessage env st m = .completed st2 d calls := by
  obtain ⟨s2, d, calls, heq, _⟩ := handle_completes env st m
  exact ⟨sSet st m.sender s2, d, calls, heq⟩

/-- Claim C1 counterexample: with a well-formed 64-byte hex digest and a
present but malformed one-byte signature header the verifier does not
return false: the length-mismatch exception of crypto.timingSafeEqual
escapes. -/
theorem verifySignature_throws_on_length_mismatch :
    verifySignature (List.replicate 64 97) (some [97]) = .error .lengthMismatch := by
  rfl

/-- Claim C1 amended: an absent or empty signature header yields false
without throwing; a present non-empty header is handed to
crypto.timingSafeEqual, which returns the byte-wise verdict when the
header's byte length equals that of the expected sha256-tagged digest
and throws a length mismatch otherwise. -/
theorem verifySignature_amended (digest : List Nat) :
    verifySignature digest none = .ok false ∧
    verifySignature digest (some []) = .ok false ∧
    (∀ s : List Nat, s ≠ [] → s.length = (sha256Tag ++ digest).length →
      verifySignature digest (some s) = .ok (s == sha256Tag ++ digest)) ∧
    (∀ s : List Nat, s ≠ [] → s.length ≠ (sha256Tag ++ digest).length →
      verifySignature digest (some s) = .error .lengthMismatch) := by
  refine ⟨rfl, rfl, ?_, ?_⟩
  · intro s hs hlen
    cases s with
    | nil => exact absurd rfl hs
    | cons a t => simp [verifySignature, timingSafeEqual, hlen]
  · intro s hs hlen
    cases s with
    | nil => exact absurd rfl hs
    | cons a t =>
        simp only [verifySignature]
        rw [timingSafeEqual, if_neg hlen]

/-- Witness for verifySignature_amended: a present two-byte header on a
64-byte digest falls in the throwing case. -/
theorem verifySignature_amended_witness :
    ([98, 98] ≠ ([] : List Nat)) ∧
    [98, 98].length ≠ (sha256Tag ++ List.replicate 64 98).length ∧
    verifySignature (List.replicate 64 98) (some [98, 98]) = .error .lengthMismatch :=
  ⟨by decide, by decide,
   (verifySignature_amended (List.replicate 64 98)).2.2.2 [98, 98] (by decide) (by decide)⟩

/-- Claim C9: the message normalizer is a total function over inbound
payloads: each documented message type maps to its body form, audio in
particular to the [Audio] placeholder, every unrecognized type maps to
the fixed unsupported placeholder, and every payload receives a value. -/
theorem extractMessageContent_total :
    (∀ p, extractMessageContent ⟨p, .audio⟩ = "[Audio]") ∧
    (∀ p ty, extractMessageContent ⟨p, .other ty⟩ = "[Mensaje no soportado]") ∧
    (∀ p b, extractMessageContent ⟨p, .text b⟩ = b) ∧
    (∀ p c, extractMessageContent ⟨p, .image c⟩ = "[Imagen: " ++ jsOr c "Sin descripción" ++ "]") ∧
    (∀ p c, extractMessageContent ⟨p, .video c⟩ = "[Video: " ++ jsOr c "Sin descripción" ++ "]") ∧
    (∀ p b, extractMessageContent ⟨p, .document b⟩ = "[Documento: " ++ jsOr b "Sin nombre" ++ "]") ∧
    (∀ p la ln, extractMessageContent ⟨p, .location la ln⟩ = "[Ubicación: " ++ la ++ ", " ++ ln ++ "]") ∧
    (∀ m : Message, ∃ v : String, extractMessageContent m = v) :=
  ⟨fun _ => rfl, fun _ _ => rfl, fun _ _ => rfl, fun _ _ => rfl, fun _ _ => rfl,
   fun _ _ => rfl, fun _ _ _ => rfl, fun m => ⟨extractMessageContent m, rfl⟩⟩

/-- Claim C8: one sweep pass keeps exactly the entries whose idle age
now - last_activity does not strictly exceed the 24 hour threshold, so
it removes exactly the sessions whose age strictly exceeds maxAge and no
other. -/
theorem cleanupSessions_exact (st : Store) (now : Int) (p : String) (s : Session) :
    (p, s) ∈ cleanupSessions st now ↔ (p, s) ∈ st ∧ ¬(now - s.last_activity > maxAge) := by
  simp [cleanupSessions, List.mem_filter]

/-- With an existing session, a failing reasoning call is caught inside
processWithAI and replaced by the fallback reply paired with the
session's current context. -/
theorem turnAI_error (env : HandlerEnv) (st : Store) (m : Message) (s : Session)
    (aerr : AxiosError) (h1 : sGet st m.sender = some s)
    (h2 : env.ai m.sender (extractMessageContent m) s.conversation_id s.context = .error aerr) :
    (turnAI env st m).1 = { response := fallbackMessage, context := some s.context } := by
  rw [turnAI, resolveSession_existing env st m.sender s h1]
  simp [processWithAI, h2]

/-- With an existing session, a successful reasoning call hands its
response through unchanged. -/
theorem turnAI_ok (env : HandlerEnv) (st : Store) (m : Message) (s : Session) (d : AIData)
    (h1 : sGet st m.sender = some s)
    (h2 : env.ai m.sender (extractMessageContent m) s.conversation_id s.context = .ok d) :
    (turnAI env st m).1 = d := by
  rw [turnAI, resolveSession_existing env st m.sender s h1]
  simp [processWithAI, h2]

/-- Claim C2: in a turn whose reasoning call fails, the reply handed to
delivery is the fixed fallback string (so whatever is delivered equals
it), and the sender's stored session keeps its pre-turn context whether
or not the delivery succeeds: only last_activity is touched. -/
theorem reasoning_failure_preserves_context (env : HandlerEnv) (st : Store) (m : Message)
    (s : Session) (aerr : AxiosError)
    (h1 : sGet st m.sender = some s)
    (h2 : env.ai m.sender (extractMessageContent m) s.conversation_id s.context = .error aerr) :
    ∃ d calls, handleIncomingMessage env st m =
      .completed (sSet st m.sender { s with last_activity := env.now }) d calls ∧
      ∀ r, d = some r → r = fallbackMessage := by
  have hair := turnAI_error env st m s aerr h1 h2
  have hres := resolveSession_existing env st m.sender s h1
  unfold handleIncomingMessage handlerBody
  cases hsend : (turnSend env st m).1 with
  | error e =>
      cases hap : (apologySend env m).1 with
      | error e2 =>
          refine ⟨none, (turnAI env st m).2 ++ (turnSend env st m).2 ++ (apologySend env m).2,
            ?_, fun r hr => Option.noConfusion hr⟩
          rw [hres]
      | ok r2 =>
          refine ⟨none, (turnAI env st m).2 ++ (turnSend env st m).2 ++ (apologySend env m).2,
            ?_, fun r hr => Option.noConfusion hr⟩
          rw [hres]
  | ok r =>
      refine ⟨some fallbackMessage, (turnAI env st m).2 ++ (turnSend env st m).2, ?_, ?_⟩
      · rw [hres, hair, sSet_sSet]
        rfl
      · intro r2 hr2
        injection hr2 with h
        exact h.symm

/-- Witness for reasoning_failure_preserves_context: a timing-out
reasoning call on an existing session. -/
theorem reasoning_failure_witness :
    sGet [("50612345678", sampleSession)] "50612345678" = some sampleSession ∧
    failAIEnv.ai "50612345678" "Hola" "conv_1" [("k", "v")] = .error .timeout ∧
    ∃ d calls, handleIncomingMessage failAIEnv [("50612345678", sampleSession)] sampleMessage =
      .completed (sSet [("50612345678", sampleSession)] "50612345678"
        { sampleSession with last_activity := 11 }) d calls ∧
      ∀ r, d = some r → r = fallbackMessage :=
  ⟨rfl, rfl,
   reasoning_failure_preserves_context failAIEnv [("50612345678", sampleSession)] sampleMessage
     sampleSession .timeout rfl rfl⟩

/-- Claim C3 counterexample: a fully successful turn (reasoning ok,
delivery ok) whose response carries a null context field keeps the prior
context stored instead of replacing the context with the returned value:
the update is not a wholesale replacement for every possible returned
context value. -/
theorem context_not_replaced_on_null :
    handleIncomingMessage nullCtxEnv [("50612345678", sampleSession)] sampleMessage =
      .completed [("50612345678", { sampleSession with last_activity := 7 })] (some "ok")
        [.aiCall "50612345678" "Hola" "conv_1" [("k", "v")],
         .sendAttempt "50612345678@c.us" "ok"] := by
  rfl

/-- Claim C3 amended: after a turn whose reasoning and delivery both
succeeded, the stored context is the JavaScript truthy-or of the
returned context and the prior one: a truthy returned context replaces
the prior context wholesale, while a falsy (null or absent) returned
context leaves the prior context in place. -/
theorem context_update_amended (env : HandlerEnv) (st : Store) (m : Message)
    (s : Session) (d : AIData) (r : DeliveryResult)
    (h1 : sGet st m.sender = some s)
    (h2 : env.ai m.sender (extractMessageContent m) s.conversation_id s.context = .ok d)
    (h3 : (turnSend env st m).1 = .ok r) :
    ∃ calls, handleIncomingMessage env st m =
      .completed
        (sSet st m.sender
          { s with last_activity := env.now, context := d.context.getD s.context })
        (some d.response) calls := by
  have hair := turnAI_ok env st m s d h1 h2
  have hres := resolveSession_existing env st m.sender s h1
  unfold handleIncomingMessage handlerBody
  simp only [h3]
  refine ⟨(turnAI env st m).2 ++ (turnSend env st m).2, ?_⟩
  rw [hres, hair, sSet_sSet]

/-- Witness for context_update_amended: a successful turn with a truthy
returned context on an existing session. -/
theorem context_update_amended_witness :
    sGet [("50612345678", sampleSession)] "50612345678" = some sampleSession ∧
    okEnv.ai "50612345678" "Hola" "conv_1" [("k", "v")] =
      .ok { response := "ok", context := some [("step", "2")] } ∧
    (turnSend okEnv [("50612345678", sampleSession)] sampleMessage).1 =
      .ok { success := true, message_id := "mid_1" } ∧
    ∃ calls, handleIncomingMessage okEnv [("50612345678", sampleSession)] sampleMessage =
      .completed (sSet [("50612345678", sampleSession)] "50612345678"
        { sampleSession with last_activity := 5, context := [("step", "2")] })
        (some "ok") calls :=
  ⟨rfl, rfl, rfl,
   context_update_amended okEnv [("50612345678", sampleSession)] sampleMessage sampleSession
     { response := "ok", context := some [("step", "2")] }
     { success := true, message_id := "mid_1" } rfl rfl rfl⟩

/-- Claim C4 counterexample: a turn whose reasoning step succeeded with
a fresh context [("n", "1")] and whose delivery failed ends with the old
context [("k", "v")] still stored: the context had not been replaced
when delivery was attempted. -/
theorem delivery_failure_keeps_old_context :
    handleIncomingMessage failSendEnv [("50612345678", sampleSession)] sampleMessage =
      .completed [("50612345678", { sampleSession with last_activity := 9 })] none
        [.aiCall "50612345678" "Hola" "conv_1" [("k", "v")],
         .sendAttempt "50612345678@c.us" "nuevo",
         .sendAttempt "50612345678@c.us" fallbackMessage] := by
  rfl

/-- Claim C4 amended: delivery is attempted before the context update:
when the reasoning step of a turn succeeds but the delivery fails, the
turn ends with the prior context still stored (only last_activity has
been touched); the returned context is written only after a successful
delivery. -/
theorem context_update_after_delivery (env : HandlerEnv) (st : Store) (m : Message)
    (s : Session) (d : AIData) (e : SendError)
    (h1 : sGet st m.sender = some s)
    (_h2 : env.ai m.sender (extractMessageContent m) s.conversation_id s.context = .ok d)
    (h3 : (turnSend env st m).1 = .error e) :
    ∃ calls, handleIncomingMessage env st m =
      .completed (sSet st m.sender { s with last_activity := env.now }) none calls := by
  have hres := resolveSession_existing env st m.sender s h1
  unfold handleIncomingMessage handlerBody
  simp only [h3]
  cases hap : (apologySend env m).1 with
  | error e2 =>
      refine ⟨(turnAI env st m).2 ++ (turnSend env st m).2 ++ (apologySend env m).2, ?_⟩
      rw [hres]
  | ok r2 =>
      refine ⟨(turnAI env st m).2 ++ (turnSend env st m).2 ++ (apologySend env m).2, ?_⟩
      rw [hres]

/-- Witness for context_update_after_delivery: a successful reasoning
step followed by a failing delivery. -/
theorem context_update_after_delivery_witness :
    sGet [("50612345678", sampleSession)] "50612345678" = some sampleSession ∧
    failSendEnv.ai "50612345678" "Hola" "conv_1" [("k", "v")] =
      .ok { response := "nuevo", context := some [("n", "1")] } ∧
    (turnSend failSendEnv [("50612345678", sampleSession)] sampleMessage).1 =
      .error (.transport .disconnected) ∧
    ∃ calls, handleIncomingMessage failSendEnv [("50612345678", sampleSession)] sampleMessage =
      .completed (sSet [("50612345678", sampleSession)] "50612345678"
        { sampleSession with last_activity := 9 }) none calls :=
  ⟨rfl, rfl, rfl,
   context_update_after_delivery failSendEnv [("50612345678", sampleSession)] sampleMessage
     sampleSession { response := "nuevo", context := some [("n", "1")] }
     (.transport .disconnected) rfl rfl rfl⟩

/-- Claim C5 counterexample: sendMessage does not return a
failure-valued DeliveryResult in either failure case: a not-ready client
makes it throw the not-ready error before any network attempt, and a
transport failure is rethrown to the caller instead of being returned as
a result. -/
theorem sendMessage_throws_instead_of_result :
    sendMessage false (fun _ _ => .ok "mid") "50612345678" "hola" = (.error .notReady, []) ∧
    sendMessage true (fun _ _ => .error .disconnected) "50612345678" "hola" =
      (.error (.transport .disconnected),
       [.sendAttempt (formatPhoneNumber "50612345678") "hola"]) :=
  ⟨rfl, rfl⟩

/-- Claim C5 amended: when the client is not ready sendMessage throws
the not-ready error immediately and makes no network attempt; when
ready it makes exactly one attempt on the formatted number and either
returns success true with the message id or rethrows the transport
error; a returned DeliveryResult always has success true, so failures
reach the caller only as exceptions. -/
theorem sendMessage_amended (isReady : Bool)
    (transport : String → String → Except TransportError String) (phone msg : String) :
    (isReady = false → sendMessage isReady transport phone msg = (.error .notReady, [])) ∧
    (∀ mid, isReady = true → transport (formatPhoneNumber phone) msg = .ok mid →
      sendMessage isReady transport phone msg =
        (.ok { success := true, message_id := mid },
         [.sendAttempt (formatPhoneNumber phone) msg])) ∧
    (∀ e, isReady = true → transport (formatPhoneNumber phone) msg = .error e →
      sendMessage isReady transport phone msg =
        (.error (.transport e), [.sendAttempt (formatPhoneNumber phone) msg])) ∧
    (∀ r calls, sendMessage isReady transport phone msg = (.ok r, calls) → r.success = true) := by
  refine ⟨?_, ?_, ?_, ?_⟩
  · intro h
    subst h
    rfl
  · intro mid h ht
    subst h
    simp [sendMessage, ht]
  · intro e h ht
    subst h
    simp [sendMessage, ht]
  · intro r calls h
    cases isReady with
    | false => simp [sendMessage] at h
    | true =>
        cases ht : transport (formatPhoneNumber phone) msg with
        | ok mid =>
            have hval : sendMessage true transport phone msg =
                (.ok { success := true, message_id := mid },
                 [.sendAttempt (formatPhoneNumber phone) msg]) := by
              simp [sendMessage, ht]
            rw [hval] at h
            injection h with h1 h2
            injection h1 with h1
            rw [← h1]
        | error e => simp [sendMessage, ht] at h

/-- Witness for sendMessage_amended: a ready client with a delivering
transport. -/
theorem sendMessage_amended_witness :
    (true = true) ∧
    ((fun _ _ => (Except.ok "mid_w" : Except TransportError String))
        (formatPhoneNumber "888") "hola" = .ok "mid_w") ∧
    sendMessage true (fun _ _ => .ok "mid_w") "888" "hola" =
      (.ok { success := true, message_id := "mid_w" },
       [.sendAttempt (formatPhoneNumber "888") "hola"]) :=
  ⟨rfl, rfl,
   (sendMessage_amended true (fun _ _ => .ok "mid_w") "888" "hola").2.1 "mid_w" rfl rfl⟩

/-- Claim C6 counterexample: a present one-byte signature header that
does not verify is answered with a 500-style server error because the
verifier throws inside the middleware, not with the 401 authentication
rejection; the store and the downstream call list are untouched all the
same. -/
theorem webhook_malformed_signature_is_500 :
    webhookPost (List.replicate 64 97) (some [97]) okEnv [("u", sampleSession)] [sampleMessage] =
      (.serverError, [("u", sampleSession)], []) ∧
    (HttpReply.serverError ≠ HttpReply.unauthorized) :=
  ⟨rfl, fun h => HttpReply.noConfusion h⟩

/-- Claim C6 amended: whenever the signature header is absent or fails
to verify, nothing beyond the verification runs: the session store is
returned unchanged and no reasoning or delivery call is made; the HTTP
answer is the 401 authentication rejection exactly when the verifier
returned false, and a server error when the verifier threw. -/
theorem webhook_gate_amended (digest : List Nat) (signature : Option (List Nat))
    (env : HandlerEnv) (st : Store) (msgs : List Message)
    (h : verifySignature digest signature ≠ .ok true) :
    (webhookPost digest signature env st msgs).2.1 = st ∧
    (webhookPost digest signature env st msgs).2.2 = [] ∧
    ((webhookPost digest signature env st msgs).1 = .unauthorized ↔
      verifySignature digest signature = .ok false) := by
  cases hv : verifySignature digest signature with
  | ok b =>
      cases b with
      | false => simp [webhookPost, hv]
      | true => exact absurd hv h
  | error e => simp [webhookPost, hv]

/-- Witness for webhook_gate_amended: an absent header is answered
401. -/
theorem webhook_gate_amended_witness :
    (verifySignature (List.replicate 64 99) none ≠ .ok true) ∧
    (webhookPost (List.replicate 64 99) none okEnv [] []).1 = .unauthorized :=
  ⟨fun h => Bool.noConfusion (Except.ok.inj h),
   (webhook_gate_amended (List.replicate 64 99) none okEnv [] []
      (fun h => Bool.noConfusion (Except.ok.inj h))).2.2.mpr rfl⟩

/-- A step keeps the keys of the store pairwise distinct. -/
theorem step_keysNodup (st : Store) (e : Event) (h : keysNodup st) : keysNodup (step st e) := by
  cases e with
  | incoming env m =>
      obtain ⟨s2, d, calls, heq, _⟩ := handle_completes env st m
      simp only [step, heq]
      exact keysNodup_sSet st m.sender s2 h
  | sweep now => exact keysNodup_cleanup st now h

/-- A step never changes the conversation id of a session that is stored
before and after it. -/
theorem step_id_stable (st : Store) (e : Event) (p : String) (s s2 : Session)
    (hnd : keysNodup st) (h1 : sGet st p = some s) (h2 : sGet (step st e) p = some s2) :
    s2.conversation_id = s.conversation_id := by
  cases e with
  | incoming env m =>
      obtain ⟨sx, d, calls, heq, hid⟩ := handle_completes env st m
      simp only [step, heq] at h2
      by_cases hp : m.sender = p
      · subst hp
        rw [sGet_sSet_self] at h2
        injection h2 with h2
        rw [resolveSession_existing env st m.sender s h1] at hid
        rw [← h2, hid]
      · rw [sGet_sSet_ne st m.sender p sx hp, h1] at h2
        injection h2 with h2
        rw [← h2]
  | sweep now =>
      have hmem := mem_of_sGet (cleanupSessions st now) p s2 h2
      have hmem2 := mem_of_mem_cleanup st now (p, s2) hmem
      have heq := keysNodup_unique st p s2 s hnd hmem2 (mem_of_sGet st p s h1)
      rw [heq]

/-- The initial store is among the states of a run. -/
theorem self_mem_states (st : Store) (es : List Event) : st ∈ states st es := by
  cases es with
  | nil => simp [states]
  | cons e rest => simp [states]

/-- Claim C7: starting from a store with pairwise distinct keys, every
sequence of inbound-message and sweep events keeps at most one session
per userId (the keys stay pairwise distinct), and a user's
conversation_id is the same at the end of the run as at the start
whenever the user's session exists in every intermediate state: the id
is generated only at creation and is stable until the session is
evicted. -/
theorem session_uniqueness_and_id_stability (es : List Event) (st : Store) (p : String)
    (hnd : keysNodup st) :
    keysNodup (run st es) ∧
    (∀ s s2, (∀ st2 ∈ states st es, (sGet st2 p).isSome) →
      sGet st p = some s → sGet (run st es) p = some s2 →
      s2.conversation_id = s.conversation_id) := by
  induction es generalizing st with
  | nil =>
      refine ⟨hnd, ?_⟩
      intro s s2 _ h1 h2
      rw [run, List.foldl_nil, h1] at h2
      injection h2 with h2
      rw [← h2]
  | cons e rest ih =>
      have hnd2 := step_keysNodup st e hnd
      refine ⟨(ih (step st e) hnd2).1, ?_⟩
      intro s s2 halive h1 h2
      have hmid : (sGet (step st e) p).isSome :=
        halive (step st e) (List.mem_cons_of_mem st (self_mem_states (step st e) rest))
      obtain ⟨s1, hs1⟩ := Option.isSome_iff_exists.mp hmid
      have hstep := step_id_stable st e p s s1 hnd h1 hs1
      have halive2 : ∀ st2 ∈ states (step st e) rest, (sGet st2 p).isSome :=
        fun st2 hst2 => halive st2 (List.mem_cons_of_mem st hst2)
      have hrest := (ih (step st e) hnd2).2 s1 s2 halive2 hs1 h2
      rw [hrest, hstep]

/-- Witness for session_uniqueness_and_id_stability: a one-session store
run through one sweep that keeps the session. -/
theorem session_uniqueness_witness :
    keysNodup (run [("50612345678", sampleSession)] [Event.sweep 10]) ∧
    sampleSession.conversation_id = sampleSession.conversation_id :=
  ⟨(session_uniqueness_and_id_stability [Event.sweep 10] [("50612345678", sampleSession)]
      "50612345678" (by decide)).1,
   (session_uniqueness_and_id_stability [Event.sweep 10] [("50612345678", sampleSession)]
      "50612345678" (by decide)).2 sampleSession sampleSession (by decide) (by decide) (by decide)⟩
